import Mathlib

/-!
Verification development for the plaso repository fragment: the Mac OS X
wifi.log parser (`plaso/parsers/mac_wifi.py`) is embedded directly from its
source; the attribute-container registry, the attribute-container store and
the multi-process engine are present in the repository only through their
tests, so those components are modelled from the specification document and
marked as such in their doc comments.
-/

set_option maxHeartbeats 1000000

namespace Plaso

/-! ### String helpers mirroring the Python operations used by the sources -/

/-- ASCII whitespace characters: the characters matched by Python's
`str.split()` / `str.strip()` with no arguments and by the regex class
`\s` (restricted to ASCII, which covers every string the parser handles). -/
def isPyWhitespace (c : Char) : Bool :=
  c = ' ' || c = '\t' || c = '\n' || c = '\r' || c = '\x0b' || c = '\x0c'

/-- Boolean prefix test on character lists. -/
def listIsPrefixOf : List Char → List Char → Bool
  | [], _ => true
  | _ :: _, [] => false
  | a :: as, b :: bs => a = b && listIsPrefixOf as bs

/-- Python `needle in hay` substring test, on character lists. -/
def listContainsSub (needle : List Char) : List Char → Bool
  | [] => needle.isEmpty
  | c :: t => listIsPrefixOf needle (c :: t) || listContainsSub needle t

/-- Python `s.startswith(pre)`. -/
def strStartsWith (s pre : String) : Bool := listIsPrefixOf pre.data s.data

/-- Python `needle in hay` on strings. -/
def pyIn (needle hay : String) : Bool := listContainsSub needle.data hay.data

/-- Python `str.lower()` restricted to ASCII letters. -/
def pyLower (s : String) : String := String.mk (s.data.map Char.toLower)

/-- Python `str.strip()` with no arguments: remove leading and trailing
whitespace. -/
def pyStrip (s : String) : String :=
  String.mk (((s.data.dropWhile isPyWhitespace).reverse.dropWhile
    isPyWhitespace).reverse)

/-- Worker for `pySplitWs`; `acc` holds the reversed current word. -/
def pySplitAux : List Char → List Char → List String
  | acc, [] => if acc.isEmpty then [] else [String.mk acc.reverse]
  | acc, c :: t =>
    if isPyWhitespace c then
      if acc.isEmpty then pySplitAux [] t
      else String.mk acc.reverse :: pySplitAux [] t
    else pySplitAux (c :: acc) t

/-- Python `str.split()` with no arguments: split on whitespace runs,
dropping empty pieces. -/
def pySplitWs (s : String) : List String := pySplitAux [] s.data

/-- Python `s[1:-1]`: drop the first and the last character. -/
def pySlice1m1 (s : String) : String := String.mk ((s.data.drop 1).dropLast)

/-! ### Embedding of the two regular expressions of `MacWifiLogParser` -/

/-- Consume a regex literal at the head of the input. -/
def dropLit (lit l : List Char) : Option (List Char) :=
  if listIsPrefixOf lit l then some (l.drop lit.length) else none

/-- Consume one regex `\s` character. -/
def dropWsChar : List Char → Option (List Char)
  | [] => none
  | c :: t => if isPyWhitespace c then some t else none

/-- Tail test for `\.\sBailing`, the part of `RE_CONNECTED` that follows the
captured group. -/
def connectedTailOk : List Char → Bool
  | '.' :: w :: rest => isPyWhitespace w && listIsPrefixOf "Bailing".data rest
  | _ => false

/-- The greedy group `(.*)` of `RE_CONNECTED`: the longest newline-free
prefix `g` of `r` such that `\.\sBailing` matches immediately after `g`. -/
def reConnectedGroup (r : List Char) : Option (List Char) :=
  (List.range (r.length + 1)).reverse.findSome? (fun i =>
    let g := r.take i
    if g.contains '\n' then none
    else if connectedTailOk (r.drop i) then some g else none)

/-- Python `re.match` of `RE_CONNECTED`, the pattern
`Already\sassociated\sto\s(.*)\.\sBailing` of `mac_wifi.py`, returning the
contents of group 1 when the pattern matches at the start of `text`. -/
def reConnectedMatch (text : String) : Option String := do
  let r1 ← dropLit "Already".data text.data
  let r2 ← dropWsChar r1
  let r3 ← dropLit "associated".data r2
  let r4 ← dropWsChar r3
  let r5 ← dropLit "to".data r4
  let r6 ← dropWsChar r5
  let g ← reConnectedGroup r6
  return String.mk g

/-- A lazy group followed by a literal, `(.*?)sep`: the shortest newline-free
prefix before an occurrence of `sep`; returns the group and the input left
after `sep`. -/
def lazyUpTo (sep : List Char) : List Char → Option (List Char × List Char)
  | [] => if listIsPrefixOf sep [] then some ([], []) else none
  | c :: t =>
    if listIsPrefixOf sep (c :: t) then some ([], List.drop sep.length (c :: t))
    else if c = '\n' then none
    else (lazyUpTo sep t).map (fun p => (c :: p.1, p.2))

/-- One anchored attempt of `RE_WIFI_PARAMETERS`, the pattern
`\[ssid=(.*?), bssid=(.*?), security=(.*?), rssi=` of `mac_wifi.py`. -/
def wifiParametersAt (l : List Char) :
    Option (List Char × List Char × List Char) := do
  let r0 ← dropLit "[ssid=".data l
  let p1 ← lazyUpTo ", bssid=".data r0
  let p2 ← lazyUpTo ", security=".data p1.2
  let p3 ← lazyUpTo ", rssi=".data p2.2
  return (p1.1, p2.1, p3.1)

/-- Python `re.search` of `RE_WIFI_PARAMETERS`: try each start position from
the left, returning the three captured groups of the first match. -/
def reWifiParametersSearch : List Char → Option (List Char × List Char × List Char)
  | [] => none
  | c :: t =>
    match wifiParametersAt (c :: t) with
    | some r => some r
    | none => reWifiParametersSearch t

/-! ### Embedding of `MacWifiLogParser` (`plaso/parsers/mac_wifi.py`) -/

/-- Embeds `MacWifiLogParser._GetAction`. The result `none` models the
uncaught `IndexError` raised by `text.split()[0]` in the
`airportdProcessDLILEvent` branch when `text` has no non-whitespace
characters; every other path returns a string like the Python code. -/
def GetAction (agent function text : String) : Option String :=
  if strStartsWith agent "airportd" = false then some text
  else if pyIn "airportdProcessDLILEvent" function = true then
    match pySplitWs text with
    | [] => none
    | interface :: _ => some ("Interface " ++ interface ++ " turn up.")
  else if pyIn "doAutoJoin" function = true then
    let ssid :=
      match reConnectedMatch text with
      | some g => pySlice1m1 g
      | none => "Unknown"
    some ("Wifi connected to SSID " ++ ssid)
  else if pyIn "processSystemPSKAssoc" function = true then
    match reWifiParametersSearch text.data with
    | some (g1, g2, g3) =>
      some ("New wifi configured. BSSID: " ++
        (if g2.isEmpty then "Unknown" else String.mk g2) ++ ", SSID: " ++
        (if g1.isEmpty then "Unknown" else String.mk g1) ++ ", Security: " ++
        (if g3.isEmpty then "Unknown" else String.mk g3) ++ ".")
    | none => some text
  else some text

/-- Embeds `MacWifiLogEvent`: the event object built by `_ParseLogLine`. -/
structure MacWifiLogEvent where
  timestamp : Int
  agent : String
  function : String
  text : String
  action : String
deriving DecidableEq, Repr

/-- The month-abbreviation dictionary `timelib.MONTH_DICT` used by
`_ParseLogLine` (the `plaso.lib.timelib` module itself is outside src; the
mapping is the standard three-letter lowercase month table). `none` is
Python's `dict.get` miss value. -/
def MONTH_DICT (m : String) : Option Nat :=
  if m = "jan" then some 1 else if m = "feb" then some 2
  else if m = "mar" then some 3 else if m = "apr" then some 4
  else if m = "may" then some 5 else if m = "jun" then some 6
  else if m = "jul" then some 7 else if m = "aug" then some 8
  else if m = "sep" then some 9 else if m = "oct" then some 10
  else if m = "nov" then some 11 else if m = "dec" then some 12
  else none

/-- The environment of external time functions used by `_ParseLogLine`:
`fromTimeParts` stands for `timelib.Timestamp.FromTimeParts` with `none`
modelling a raised `ValueError` (arguments: year, month, day, hour, minute,
second, microseconds); `getYearResult` stands for the value of
`self._GetYear(self.file_entry.GetStat(), parser_context.timezone)` and
`currentYear` for `timelib.GetCurrentYear()` (both outside src). -/
structure TimeEnv where
  fromTimeParts : Nat → Option Nat → Nat → Nat → Nat → Nat → Nat → Option Int
  getYearResult : Nat
  currentYear : Nat

/-- The mutable parser attributes set in `MacWifiLogParser.__init__`:
`self._year_use = 0` and `self._last_month = None`. -/
structure MacWifiParserState where
  year_use : Nat
  last_month : Option Nat
deriving DecidableEq, Repr

/-- Python truthiness test on an optional integer: `None` and `0` are falsy,
as in `if not self._last_month`. -/
def pyFalsyOptNat : Option Nat → Bool
  | none => true
  | some n => n = 0

/-- Python 2 `<` on optional integers as used in `month < self._last_month`:
`None` compares smaller than every integer. -/
def pyLtOptNat : Option Nat → Option Nat → Bool
  | none, none => false
  | none, some _ => true
  | some _, none => false
  | some a, some b => a < b

/-- The fields of the pyparsing `ParseResults` for the `logline` structure of
`MacWifiLogParser.LINE_STRUCTURES`: day-of-week and month names, the day
number, the time as ((hour, minute, second), millisecond), and the agent,
function and text strings. -/
structure WifiLogStructure where
  day_of_week : String
  month : String
  day : Nat
  time : (Nat × Nat × Nat) × Nat
  agent : String
  function : String
  text : String
deriving DecidableEq, Repr

/-- Embeds `MacWifiLogParser._GetTimestamp`: calls `FromTimeParts(year,
month, day, hour, minute, second, microseconds=millisecond*1000)` and
returns 0 when it raises `ValueError`. -/
def GetTimestamp (env : TimeEnv) (day : Nat) (month : Option Nat)
    (year : Nat) (time : (Nat × Nat × Nat) × Nat) : Int :=
  match env.fromTimeParts year month day time.1.1 time.1.2.1 time.1.2.2
      (time.2 * 1000) with
  | some ts => ts
  | none => 0

/-- The value `self._year_use` holds after the fallback chain at the top of
`_ParseLogLine`: the first truthy value of the stored year, the parser
context year, the `_GetYear` result, and `GetCurrentYear()`. -/
def resolveYear (env : TimeEnv) (ctx_year : Nat) (st : MacWifiParserState) : Nat :=
  if st.year_use ≠ 0 then st.year_use
  else if ctx_year ≠ 0 then ctx_year
  else if env.getYearResult ≠ 0 then env.getYearResult
  else env.currentYear

/-- The value `month` computed in `_ParseLogLine`:
`timelib.MONTH_DICT.get(structure.month.lower())`. -/
def monthOfLine (s : WifiLogStructure) : Option Nat := MONTH_DICT (pyLower s.month)

/-- The value `self._last_month` holds after
`if not self._last_month: self._last_month = month` in `_ParseLogLine`. -/
def lastMonthInit (st : MacWifiParserState) (s : WifiLogStructure) : Option Nat :=
  if pyFalsyOptNat st.last_month then monthOfLine s else st.last_month

/-- The value `self._year_use` holds after the year-gap test
`if month < self._last_month: self._year_use += 1` in `_ParseLogLine`. -/
def yearForLine (env : TimeEnv) (ctx_year : Nat) (st : MacWifiParserState)
    (s : WifiLogStructure) : Nat :=
  if pyLtOptNat (monthOfLine s) (lastMonthInit st s) then
    resolveYear env ctx_year st + 1
  else resolveYear env ctx_year st

/-- Possible outcomes of one `_ParseLogLine` call: an event object, the
`return None` taken on a falsy timestamp, or an exception escaping from
`_GetAction`. -/
inductive ParseOutcome where
  | event (e : MacWifiLogEvent)
  | noEvent
  | raised
deriving DecidableEq, Repr

/-- Embeds `MacWifiLogParser._ParseLogLine`: returns the updated parser
state (`_year_use`, `_last_month`) together with the outcome. Note that the
source assigns `self._last_month = month` inside the falsy-initialisation
branch before the timestamp check, and assigns it again after the check
succeeds. -/
def ParseLogLine (env : TimeEnv) (ctx_year : Nat) (st : MacWifiParserState)
    (s : WifiLogStructure) : MacWifiParserState × ParseOutcome :=
  let month := monthOfLine s
  let last1 := lastMonthInit st s
  let year := yearForLine env ctx_year st s
  let ts := GetTimestamp env s.day month year s.time
  if ts = 0 then ({ year_use := year, last_month := last1 }, ParseOutcome.noEvent)
  else
    let func := pyStrip s.function
    match GetAction s.agent func s.text with
    | none => ({ year_use := year, last_month := month }, ParseOutcome.raised)
    | some action =>
      ({ year_use := year, last_month := month },
       ParseOutcome.event
         { timestamp := ts, agent := s.agent, function := func,
           text := s.text, action := action })

/-- Successive `_ParseLogLine` calls over a list of parsed line structures,
threading the parser state and collecting the outcomes. -/
def parseMany (env : TimeEnv) (ctx_year : Nat) :
    MacWifiParserState → List WifiLogStructure →
      MacWifiParserState × List ParseOutcome
  | st, [] => (st, [])
  | st, l :: ls =>
    let r := ParseLogLine env ctx_year st l
    let rest := parseMany env ctx_year r.1 ls
    (rest.1, r.2 :: rest.2)

/-! ### Container Registry (modelled from the spec) -/

/-- Modelled from the spec: the errors of the Container Registry contract
(section 4.1); the registry implementation
`plaso.containers.manager.AttributeContainersManager` is not under src, only
its test `src/tests/containers/manager.py` is. -/
inductive RegistryError where
  | DuplicateRegistration
  | NotRegistered
deriving DecidableEq, Repr

/-- Modelled from the spec: a container schema/class entry of the registry,
identified by its class name. -/
structure ContainerClass where
  className : String
deriving DecidableEq, Repr

/-- Modelled from the spec: the Container Registry, a mapping from container
type tag to schema/class with unique keys, represented as an association
list. -/
abbrev Registry := List (String × ContainerClass)

/-- Modelled from the spec: `Register(containerType, schema)` fails with
`DuplicateRegistration` if the type is already present; otherwise installs
the mapping. -/
def Register (r : Registry) (t : String) (c : ContainerClass) :
    Except RegistryError Registry :=
  if (List.lookup t r).isSome then Except.error RegistryError.DuplicateRegistration
  else Except.ok ((t, c) :: r)

/-- Modelled from the spec: `Deregister(containerType)` fails with
`NotRegistered` if the type is absent; otherwise removes the mapping. -/
def Deregister (r : Registry) (t : String) : Except RegistryError Registry :=
  if (List.lookup t r).isSome then Except.ok (r.eraseP (fun p => p.1 == t))
  else Except.error RegistryError.NotRegistered

/-- Modelled from the spec: `Lookup(containerType)` returns the schema or
fails with `NotRegistered`. -/
def Lookup (r : Registry) (t : String) : Except RegistryError ContainerClass :=
  match List.lookup t r with
  | some c => Except.ok c
  | none => Except.error RegistryError.NotRegistered

/-! ### Attribute Container Store (modelled from the spec) -/

/-- Modelled from the spec: an attribute container, a typed record carrying
its container type tag and its serialized attribute data (the data length
stands for the serialized record length). -/
structure AttributeContainer where
  container_type : String
  data : String
deriving DecidableEq, Repr

/-- Modelled from the spec: the store error raised once the writer is
closed. -/
inductive StorageError where
  | WriterClosed
deriving DecidableEq, Repr

/-- Modelled from the spec: the storage writer of section 4.2; the name is
the class `ZIPStorageFileWriter` visible in
`src/tests/multi_processing/engine.py` (the `plaso.storage.zip_file` module
is not under src). It holds the bound session identifier, one typed stream
per container type in write order, the in-memory index of (offset, length)
entries per type, and the closed flag. -/
structure ZIPStorageFileWriter where
  session_identifier : String
  streams : List (String × List AttributeContainer)
  index : List (String × List (Nat × Nat))
  closed : Bool
deriving DecidableEq, Repr

/-- Modelled from the spec: `Open(session, path)` creates a new store file
bound to the session, writing a header with the session identifier. -/
def OpenWriter (session_identifier : String) : ZIPStorageFileWriter :=
  { session_identifier := session_identifier, streams := [], index := [],
    closed := false }

/-- Total serialized size of a typed stream. -/
def streamBytes : List AttributeContainer → Nat
  | [] => 0
  | c :: cs => c.data.length + streamBytes cs

/-- Append a container to the stream of its type, creating the stream when
the type is new. -/
def appendToStream (streams : List (String × List AttributeContainer))
    (c : AttributeContainer) : List (String × List AttributeContainer) :=
  match streams with
  | [] => [(c.container_type, [c])]
  | (t, cs) :: rest =>
    if t = c.container_type then (t, cs ++ [c]) :: rest
    else (t, cs) :: appendToStream rest c

/-- Append one (offset, length) index entry for the given type. -/
def appendIndexEntry (index : List (String × List (Nat × Nat))) (t : String)
    (offset length : Nat) : List (String × List (Nat × Nat)) :=
  match index with
  | [] => [(t, [(offset, length)])]
  | (u, es) :: rest =>
    if u = t then (u, es ++ [(offset, length)]) :: rest
    else (u, es) :: appendIndexEntry rest t offset length

/-- The success path of `AddContainer`: append the record to its type's
stream and record its (offset, length) in the in-memory index. -/
def addContainerOk (w : ZIPStorageFileWriter) (c : AttributeContainer) :
    ZIPStorageFileWriter :=
  { w with
    streams := appendToStream w.streams c,
    index := appendIndexEntry w.index c.container_type
      (streamBytes ((List.lookup c.container_type w.streams).getD []))
      c.data.length }

/-- Modelled from the spec: `AddContainer(container)` appends the serialized
record to its type's stream and updates the index; after `Close`, further
calls fail with `WriterClosed`. -/
def AddContainer (w : ZIPStorageFileWriter) (c : AttributeContainer) :
    Except StorageError ZIPStorageFileWriter :=
  if w.closed then Except.error StorageError.WriterClosed
  else Except.ok (addContainerOk w c)

/-- Modelled from the spec: `Close()` flushes the index, writes the
finalized session record and marks the file closed. -/
def Close (w : ZIPStorageFileWriter) : ZIPStorageFileWriter :=
  { w with closed := true }

/-- Modelled from the spec: the durable store file a reader opens: header
session identifier, typed streams, and the trailing index. -/
structure StoreFile where
  session_identifier : String
  streams : List (String × List AttributeContainer)
  index : List (String × List (Nat × Nat))
deriving DecidableEq, Repr

/-- The persisted content of a closed writer. -/
def toStoreFile (w : ZIPStorageFileWriter) : StoreFile :=
  { session_identifier := w.session_identifier, streams := w.streams,
    index := w.index }

/-- Modelled from the spec: `Reader.GetContainers(containerType)` yields the
containers of that type in original write order. -/
def GetContainers (f : StoreFile) (t : String) : List AttributeContainer :=
  (List.lookup t f.streams).getD []

/-- Modelled from the spec: `Reader.GetSession()` returns the persisted
session record (here its identifier). -/
def GetSession (f : StoreFile) : String := f.session_identifier

/-- The writer after a sequence of successful `AddContainer` calls. -/
def addAll (w : ZIPStorageFileWriter) (cs : List AttributeContainer) :
    ZIPStorageFileWriter :=
  cs.foldl addContainerOk w

/-- Per-record (offset, length) entries of one stream, offsets starting at
`o`. -/
def recordEntriesFrom (o : Nat) : List AttributeContainer → List (Nat × Nat)
  | [] => []
  | c :: cs => (o, c.data.length) :: recordEntriesFrom (o + c.data.length) cs

/-- The index recomputed from the stream contents: the reference against
which the in-memory index is checked for consistency. -/
def computeIndex (streams : List (String × List AttributeContainer)) :
    List (String × List (Nat × Nat)) :=
  streams.map (fun p => (p.1, recordEntriesFrom 0 p.2))

/-! ### Task queue and engine (modelled from the spec) -/

/-- Modelled from the spec: the per-task state machine of section 4.3,
`queued → dispatched → (completed | failed)`. -/
inductive TaskState where
  | queued
  | dispatched
  | completed
  | failed
deriving DecidableEq, Repr

/-- A task counts against the outstanding-task bound while queued or
dispatched. -/
def isActive : TaskState → Bool
  | TaskState.queued => true
  | TaskState.dispatched => true
  | TaskState.completed => false
  | TaskState.failed => false

/-- Number of tasks occupying the queued-or-dispatched set. -/
def activeCount (ts : List TaskState) : Nat := ts.countP isActive

/-- Modelled from the spec: the task-scheduling state of the engine: the
configured `maximum_number_of_tasks`, the states of the tasks created so
far, and the number of Source Descriptors not yet enqueued (the
`plaso.multi_processing.engine.MultiProcessEngine` implementation is not
under src, only its test is). -/
structure EngineState where
  maximum_number_of_tasks : Nat
  tasks : List TaskState
  pending : Nat
deriving DecidableEq, Repr

/-- The engine state before any Source Descriptor is enqueued. -/
def initState (n pending : Nat) : EngineState :=
  { maximum_number_of_tasks := n, tasks := [], pending := pending }

/-- Modelled from the spec: the transitions of the bounded task queue.
Enqueueing a Source Descriptor is guarded by the outstanding-task bound; a
queued task may be dispatched; a dispatched task reaches a terminal state by
completing or failing. -/
inductive EngineStep : EngineState → EngineState → Prop where
  | enqueue (s : EngineState) (hp : 0 < s.pending)
      (hb : activeCount s.tasks < s.maximum_number_of_tasks) :
      EngineStep s { s with pending := s.pending - 1,
                            tasks := s.tasks ++ [TaskState.queued] }
  | dispatch (s : EngineState) (i : Nat)
      (hq : s.tasks[i]? = some TaskState.queued) :
      EngineStep s { s with tasks := s.tasks.set i TaskState.dispatched }
  | complete (s : EngineState) (i : Nat)
      (hd : s.tasks[i]? = some TaskState.dispatched) :
      EngineStep s { s with tasks := s.tasks.set i TaskState.completed }
  | fail (s : EngineState) (i : Nat)
      (hd : s.tasks[i]? = some TaskState.dispatched) :
      EngineStep s { s with tasks := s.tasks.set i TaskState.failed }

/-- States reachable from an initial engine configuration with bound `n` and
`p` pending Source Descriptors. -/
inductive EngineReachable (n p : Nat) : EngineState → Prop where
  | init : EngineReachable n p (initState n p)
  | step (s s' : EngineState) (hr : EngineReachable n p s)
      (hs : EngineStep s s') : EngineReachable n p s'

/-! ### ProcessSources (modelled from the spec) -/

/-- Modelled from the spec: what one Source Descriptor's extraction produces,
as seen by the Collector: either the containers the extraction routine
emitted, or a per-source extraction failure recorded at the Task boundary. -/
inductive SourceOutcome where
  | extracted (containers : List AttributeContainer)
  | extractionFailed
deriving DecidableEq, Repr

/-- Containers an outcome contributes to the store (a failed source
contributes none). -/
def extractedContainers : SourceOutcome → List AttributeContainer
  | SourceOutcome.extracted cs => cs
  | SourceOutcome.extractionFailed => []

/-- Number of failed tasks among the outcomes. -/
def failedCount : List SourceOutcome → Nat
  | [] => 0
  | SourceOutcome.extracted _ :: rest => failedCount rest
  | SourceOutcome.extractionFailed :: rest => 1 + failedCount rest

/-- All containers of the non-failing sources, in task order. -/
def survivingContainers (srcs : List SourceOutcome) : List AttributeContainer :=
  (srcs.map extractedContainers).flatten

/-- Modelled from the spec: the Session record carried through a run: the
identifier and the error counter updated by the Collector. -/
structure Session where
  identifier : String
  error_count : Nat
deriving DecidableEq, Repr

/-- Modelled from the spec: the setup errors that abort `ProcessSources`
(section 7 taxonomy class 1). -/
inductive SetupError where
  | storeOpenFailed
  | workersStartFailed
deriving DecidableEq, Repr

/-- Result of a `ProcessSources` run: a normal return with the closed store
file and the finalized session, a fatal setup error, or a storage failure
surfaced from `AddContainer`. -/
inductive ProcessResult where
  | ok (file : StoreFile) (session : Session)
  | fatal (e : SetupError)
  | storageFailure (e : StorageError)
deriving DecidableEq, Repr

/-- The Collector feeding one task's containers to `AddContainer`,
propagating any storage error. -/
def addList : ZIPStorageFileWriter → List AttributeContainer →
    Except StorageError ZIPStorageFileWriter
  | w, [] => Except.ok w
  | w, c :: cs =>
    match AddContainer w c with
    | Except.ok w' => addList w' cs
    | Except.error e => Except.error e

/-- The Collector merge loop over all task outcomes: containers of
non-failing sources go to the writer, failed tasks bump the session error
counter. -/
def runTasks : ZIPStorageFileWriter → Nat → List SourceOutcome →
    Except StorageError (ZIPStorageFileWriter × Nat)
  | w, errs, [] => Except.ok (w, errs)
  | w, errs, SourceOutcome.extracted cs :: rest =>
    match addList w cs with
    | Except.ok w' => runTasks w' errs rest
    | Except.error e => Except.error e
  | w, errs, SourceOutcome.extractionFailed :: rest =>
    runTasks w (errs + 1) rest

/-- Modelled from the spec: `ProcessSources`: fails fatally when the store
cannot be opened or the workers cannot be started; otherwise opens the
writer, runs the Collector over every task outcome, closes the writer and
finalizes the session. -/
def ProcessSources (store_openable workers_startable : Bool)
    (session_identifier : String) (sources : List SourceOutcome) :
    ProcessResult :=
  if store_openable = false then ProcessResult.fatal SetupError.storeOpenFailed
  else if workers_startable = false then
    ProcessResult.fatal SetupError.workersStartFailed
  else
    match runTasks (OpenWriter session_identifier) 0 sources with
    | Except.ok (w, errs) =>
      ProcessResult.ok (toStoreFile (Close w))
        { identifier := session_identifier, error_count := errs }
    | Except.error e => ProcessResult.storageFailure e

/-! ### The engine call protocol visible in the repository's test -/

/-- The argument passed to the `MultiProcessEngine` constructor at
src/tests/multi_processing/engine.py line 22:
`engine.MultiProcessEngine(maximum_number_of_tasks=100)`. -/
def MultiProcessEngineInitArgNames : List String := ["maximum_number_of_tasks"]

/-- The arguments of the `ProcessSources` invocation at
src/tests/multi_processing/engine.py lines 41 to 43: four positional
arguments (the session identifier, the source path specifications, the
preprocess object, the storage writer) and the keyword argument
`parser_filter_expression`. -/
def ProcessSourcesCallArgNames : List String :=
  ["session.identifier", "source_path_specs", "preprocess_object",
   "storage_writer", "parser_filter_expression"]

/-! ### Concrete inputs used by counterexamples and witnesses -/

/-- A time environment whose `FromTimeParts` always raises `ValueError`. -/
def envAllInvalid : TimeEnv :=
  { fromTimeParts := fun _ _ _ _ _ _ _ => none, getYearResult := 0,
    currentYear := 0 }

/-- A time environment in which January dates raise `ValueError` and every
other date yields a timestamp encoding the year that was passed in. -/
def envYearProbe : TimeEnv :=
  { fromTimeParts := fun y m _ _ _ _ _ =>
      if m = some 1 then none else some (Int.ofNat y),
    getYearResult := 0, currentYear := 0 }

/-- A concrete January wifi.log line structure. -/
def lineJan : WifiLogStructure :=
  { day_of_week := "Thu", month := "Jan", day := 2,
    time := ((0, 1, 2), 3), agent := "kernel", function := "core",
    text := "x" }

/-- A concrete December wifi.log line structure. -/
def lineDec : WifiLogStructure :=
  { day_of_week := "Tue", month := "Dec", day := 31,
    time := ((23, 59, 58), 7), agent := "kernel", function := "core",
    text := "x" }

/-! ## Theorems -/

/-- C8: `_GetAction` returns the input text unchanged whenever the agent
does not start with `airportd`, or the agent is an airportd agent but the
function string contains none of the substrings
`airportdProcessDLILEvent`, `doAutoJoin` and `processSystemPSKAssoc`. -/
theorem getAction_passthrough (agent function text : String)
    (h : strStartsWith agent "airportd" = false ∨
      (pyIn "airportdProcessDLILEvent" function = false ∧
       pyIn "doAutoJoin" function = false ∧
       pyIn "processSystemPSKAssoc" function = false)) :
    GetAction agent function text = some text := by
  rcases h with h | ⟨h1, h2, h3⟩
  · simp [GetAction, h]
  · by_cases hs : strStartsWith agent "airportd" = false
    · simp [GetAction, hs]
    · simp [GetAction, hs, h1, h2, h3]

/-- Witness for C8: a concrete airportd line whose function mentions none of
the recognised actions. -/
theorem getAction_passthrough_witness :
    GetAction "airportd[88]" "_handleLinkEvent" "en0 down" = some "en0 down" :=
  getAction_passthrough "airportd[88]" "_handleLinkEvent" "en0 down"
    (Or.inr ⟨by decide, by decide, by decide⟩)

/-- C9 counterexample: a first parsed line whose date components make
`FromTimeParts` raise `ValueError` yields timestamp 0 and no event, yet
`_last_month` IS updated by that line: it goes from `None` to the line's
month, because `_ParseLogLine` assigns it in the falsy-initialisation branch
before the timestamp check. -/
theorem parseLogLine_invalid_line_updates_last_month :
    envAllInvalid.fromTimeParts
        (yearForLine envAllInvalid 2013 ⟨0, none⟩ lineJan)
        (monthOfLine lineJan) lineJan.day 0 1 2 3000 = none ∧
    (ParseLogLine envAllInvalid 2013 ⟨0, none⟩ lineJan).2 =
      ParseOutcome.noEvent ∧
    (MacWifiParserState.mk 0 none).last_month = none ∧
    (ParseLogLine envAllInvalid 2013 ⟨0, none⟩ lineJan).1.last_month =
      some 1 :=
  ⟨rfl, by decide, rfl, by decide⟩

/-- C9 (amended): for every parsed line whose date components make
`FromTimeParts` raise `ValueError`, `_GetTimestamp` returns 0 and
`_ParseLogLine` returns `None`; `_last_month` is left unchanged by that line
provided it already held a truthy value — when it was still unset, the line
initialises it to the line's month even though no event is produced. -/
theorem parseLogLine_invalid_timestamp_no_event (env : TimeEnv)
    (ctx_year : Nat) (st : MacWifiParserState) (s : WifiLogStructure)
    (hft : env.fromTimeParts (yearForLine env ctx_year st s) (monthOfLine s)
      s.day s.time.1.1 s.time.1.2.1 s.time.1.2.2 (s.time.2 * 1000) = none)
    (hlm : pyFalsyOptNat st.last_month = false) :
    GetTimestamp env s.day (monthOfLine s) (yearForLine env ctx_year st s)
      s.time = 0 ∧
    (ParseLogLine env ctx_year st s).2 = ParseOutcome.noEvent ∧
    (ParseLogLine env ctx_year st s).1.last_month = st.last_month := by
  have hts : GetTimestamp env s.day (monthOfLine s)
      (yearForLine env ctx_year st s) s.time = 0 := by
    simp [GetTimestamp, hft]
  refine ⟨hts, ?_, ?_⟩ <;> simp [ParseLogLine, hts, lastMonthInit, hlm]

/-- Witness for C9 (amended): a concrete invalid-timestamp line hitting a
state whose `_last_month` is already set. -/
theorem parseLogLine_invalid_timestamp_no_event_witness :
    GetTimestamp envAllInvalid lineJan.day (monthOfLine lineJan)
      (yearForLine envAllInvalid 2013 ⟨2013, some 5⟩ lineJan)
      lineJan.time = 0 ∧
    (ParseLogLine envAllInvalid 2013 ⟨2013, some 5⟩ lineJan).2 =
      ParseOutcome.noEvent ∧
    (ParseLogLine envAllInvalid 2013 ⟨2013, some 5⟩ lineJan).1.last_month =
      some 5 :=
  parseLogLine_invalid_timestamp_no_event envAllInvalid 2013
    ⟨2013, some 5⟩ lineJan rfl rfl

/-- C10 counterexample: a run December-line, invalid January-line,
December-line (the probe environment encodes into each timestamp the year
that was passed to `FromTimeParts`): the two event-producing lines have the
same month, yet the year used for their timestamps increases from 2012 to
2013, because the invalid line in between incremented `_year_use`. -/
theorem parseLogLine_year_rollover_cex :
    monthOfLine lineDec = some 12 ∧
    (parseMany envYearProbe 2012 ⟨0, none⟩ [lineDec, lineJan, lineDec]).2 =
      [ParseOutcome.event ⟨2012, "kernel", "core", "x", "x"⟩,
       ParseOutcome.noEvent,
       ParseOutcome.event ⟨2013, "kernel", "core", "x", "x"⟩] :=
  ⟨by decide, by decide⟩

/-- C10 (amended): one `_ParseLogLine` step from a state with a truthy
stored year and a truthy `_last_month`: the year used never decreases, and
it is incremented by exactly 1 precisely when the line's month is strictly
smaller than the stored `_last_month`; after an event-producing call
`_last_month` becomes the line's month. Hence over runs in which every line
produces an event, the stored month is the month of the previous
event-producing line and the claim holds; an invalid-timestamp line in
between also applies the increment rule, which refutes the claim as
stated. -/
theorem parseLogLine_year_rollover_step (env : TimeEnv) (ctx_year : Nat)
    (st : MacWifiParserState) (s : WifiLogStructure) (mp m : Nat)
    (hy : st.year_use ≠ 0) (hlm : st.last_month = some mp) (hmp : mp ≠ 0)
    (hmo : monthOfLine s = some m) :
    (ParseLogLine env ctx_year st s).1.year_use =
      (if m < mp then st.year_use + 1 else st.year_use) ∧
    st.year_use ≤ (ParseLogLine env ctx_year st s).1.year_use ∧
    (∀ e, (ParseLogLine env ctx_year st s).2 = ParseOutcome.event e →
      (ParseLogLine env ctx_year st s).1.last_month = some m) := by
  have hres : resolveYear env ctx_year st = st.year_use := by
    simp [resolveYear, hy]
  have hlast : lastMonthInit st s = some mp := by
    simp [lastMonthInit, pyFalsyOptNat, hlm, hmp]
  have hyear : yearForLine env ctx_year st s =
      if m < mp then st.year_use + 1 else st.year_use := by
    simp [yearForLine, hlast, hmo, pyLtOptNat, hres]
  have h1 : (ParseLogLine env ctx_year st s).1.year_use =
      if m < mp then st.year_use + 1 else st.year_use := by
    by_cases hts : GetTimestamp env s.day (monthOfLine s)
        (yearForLine env ctx_year st s) s.time = 0
    · simp [ParseLogLine, hts]
      exact hyear
    · cases hga : GetAction s.agent (pyStrip s.function) s.text <;>
        simp [ParseLogLine, hts, hga] <;> exact hyear
  have h2 : st.year_use ≤ (ParseLogLine env ctx_year st s).1.year_use := by
    rw [h1]; split <;> omega
  refine ⟨h1, h2, ?_⟩
  intro e he
  by_cases hts : GetTimestamp env s.day (monthOfLine s)
      (yearForLine env ctx_year st s) s.time = 0
  · simp [ParseLogLine, hts] at he
  · cases hga : GetAction s.agent (pyStrip s.function) s.text
    · simp [ParseLogLine, hts, hga] at he
    · simp [ParseLogLine, hts, hga]
      exact hmo

/-- Witness for C10 (amended): a concrete event-producing December line from
a December state. -/
theorem parseLogLine_year_rollover_step_witness :
    (ParseLogLine envYearProbe 2012 ⟨2012, some 12⟩ lineDec).1.year_use =
      2012 ∧
    (ParseLogLine envYearProbe 2012 ⟨2012, some 12⟩ lineDec).1.last_month =
      some 12 := by
  have h := parseLogLine_year_rollover_step envYearProbe 2012
    ⟨2012, some 12⟩ lineDec 12 12 (by decide) rfl (by decide) (by decide)
  refine ⟨?_, h.2.2 ⟨2012, "kernel", "core", "x", "x"⟩ (by decide)⟩
  simpa using h.1

/-- Association-list lookup at a key equal to the head's key. -/
theorem lookup_cons_self {β : Type} (t : String) (v : β)
    (l : List (String × β)) : List.lookup t ((t, v) :: l) = some v := by
  simp [List.lookup]

/-- Association-list lookup skips a head with a different key. -/
theorem lookup_cons_ne {β : Type} (t u : String) (v : β)
    (l : List (String × β)) (h : t ≠ u) :
    List.lookup t ((u, v) :: l) = List.lookup t l := by
  have hb : (t == u) = false := beq_eq_false_iff_ne.mpr h
  simp [List.lookup, hb]

/-- Lookup misses every list whose keys avoid the key looked up. -/
theorem lookup_eq_none_of_not_mem_keys {β : Type} (t : String)
    (l : List (String × β)) (h : t ∉ l.map Prod.fst) :
    List.lookup t l = none := by
  induction l with
  | nil => rfl
  | cons p rest ih =>
    obtain ⟨u, v⟩ := p
    rw [List.map_cons, List.mem_cons] at h
    push_neg at h
    rw [lookup_cons_ne t u v rest h.1]
    exact ih h.2

/-- Erasing the entry of a key from an association list with unique keys
makes lookup of that key miss. -/
theorem lookup_eraseP_self {β : Type} (t : String) (l : List (String × β))
    (hnd : (l.map Prod.fst).Nodup) :
    List.lookup t (l.eraseP (fun p => p.1 == t)) = none := by
  induction l with
  | nil => rfl
  | cons p rest ih =>
    obtain ⟨u, v⟩ := p
    simp at hnd
    by_cases hu : u = t
    · subst hu
      rw [List.eraseP_cons_of_pos]
      · exact lookup_eq_none_of_not_mem_keys u rest (by simpa using hnd.1)
      · simp
    · rw [List.eraseP_cons_of_neg]
      · rw [lookup_cons_ne t u v _ (fun h => hu h.symm)]
        exact ih hnd.2
      · simp [hu]

/-- C3: after a successful `Register(T)`, a second `Register(T)` fails with
`DuplicateRegistration` and leaves the registry mapping unchanged: the first
registration remains installed and is still what `Lookup(T)` returns. -/
theorem register_duplicate_fails (r r' : Registry) (t : String)
    (c c' : ContainerClass) (h : Register r t c = Except.ok r') :
    Register r' t c' = Except.error RegistryError.DuplicateRegistration ∧
    Lookup r' t = Except.ok c := by
  unfold Register at h
  by_cases hl : (List.lookup t r).isSome
  · simp [hl] at h
  · simp [hl] at h
    subst h
    constructor
    · simp [Register, lookup_cons_self]
    · simp [Lookup, lookup_cons_self]

/-- Witness for C3: registering the `event` type twice. -/
theorem register_duplicate_fails_witness :
    Register [("event", ContainerClass.mk "EventObject")] "event"
        (ContainerClass.mk "Other") =
      Except.error RegistryError.DuplicateRegistration ∧
    Lookup [("event", ContainerClass.mk "EventObject")] "event" =
      Except.ok (ContainerClass.mk "EventObject") :=
  register_duplicate_fails [] [("event", ContainerClass.mk "EventObject")]
    "event" (ContainerClass.mk "EventObject") (ContainerClass.mk "Other") rfl

/-- C6: `Deregister(T)` fails with `NotRegistered` when `T` is absent; after
a successful `Deregister(T)` on a registry with unique keys, `Lookup(T)`
fails with `NotRegistered`; and `Register(T)` followed by `Deregister(T)`
restores the registry to its prior contents. -/
theorem deregister_spec (r r' r2 : Registry) (t : String)
    (c : ContainerClass) :
    (List.lookup t r = none →
      Deregister r t = Except.error RegistryError.NotRegistered) ∧
    ((r.map Prod.fst).Nodup → Deregister r t = Except.ok r' →
      Lookup r' t = Except.error RegistryError.NotRegistered) ∧
    (Register r t c = Except.ok r2 → Deregister r2 t = Except.ok r) := by
  refine ⟨?_, ?_, ?_⟩
  · intro h
    simp [Deregister, h]
  · intro hnd hok
    unfold Deregister at hok
    by_cases hl : (List.lookup t r).isSome
    · simp [hl] at hok
      subst hok
      simp [Lookup, lookup_eraseP_self t r hnd]
    · simp [hl] at hok
  · intro hok
    unfold Register at hok
    by_cases hl : (List.lookup t r).isSome
    · simp [hl] at hok
    · simp [hl] at hok
      subst hok
      rw [Deregister]
      rw [lookup_cons_self]
      simp

/-- Witness for C6: the empty registry and a single-entry registry. -/
theorem deregister_spec_witness :
    Deregister [] "event" = Except.error RegistryError.NotRegistered ∧
    Lookup ([] : Registry) "event" =
      Except.error RegistryError.NotRegistered ∧
    Deregister [("event", ContainerClass.mk "E")] "event" =
      Except.ok [] := by
  refine ⟨(deregister_spec [] [] [] "event" (ContainerClass.mk "E")).1 rfl,
    ?_, ?_⟩
  · exact (deregister_spec [("event", ContainerClass.mk "E")] [] []
      "event" (ContainerClass.mk "E")).2.1 (by simp) rfl
  · exact (deregister_spec [] [] [("event", ContainerClass.mk "E")]
      "event" (ContainerClass.mk "E")).2.2 rfl

/-- Appending a container leaves every other type's stream unchanged and
appends the record at the end of its own type's stream. -/
theorem lookup_appendToStream (s : List (String × List AttributeContainer))
    (c : AttributeContainer) (t : String) :
    List.lookup t (appendToStream s c) =
      (if t = c.container_type then
        some (((List.lookup t s).getD []) ++ [c])
      else List.lookup t s) := by
  induction s with
  | nil =>
    by_cases ht : t = c.container_type
    · simp [appendToStream, ht, lookup_cons_self]
    · simp [appendToStream, ht, lookup_cons_ne t c.container_type _ _ ht]
  | cons p rest ih =>
    obtain ⟨u, cs⟩ := p
    by_cases hu : u = c.container_type
    · by_cases ht : t = u
      · subst ht
        simp [appendToStream, hu, lookup_cons_self]
      · subst hu
        rw [if_neg ht]
        have e1 : appendToStream ((c.container_type, cs) :: rest) c =
            (c.container_type, cs ++ [c]) :: rest := by
          simp [appendToStream]
        rw [e1, lookup_cons_ne t c.container_type (cs ++ [c]) rest ht,
          lookup_cons_ne t c.container_type cs rest ht]
    · by_cases ht : t = u
      · subst ht
        have htc : t ≠ c.container_type := hu
        simp [appendToStream, hu, htc, lookup_cons_self]
      · simp [appendToStream, hu, lookup_cons_ne t u _ _ ht, ih]

/-- `addAll` on the success path never closes the writer. -/
theorem addAll_closed (w : ZIPStorageFileWriter)
    (cs : List AttributeContainer) : (addAll w cs).closed = w.closed := by
  induction cs generalizing w with
  | nil => rfl
  | cons c rest ih => exact (ih (addContainerOk w c)).trans rfl

/-- `addAll` preserves the session identifier written in the header. -/
theorem addAll_session (w : ZIPStorageFileWriter)
    (cs : List AttributeContainer) :
    (addAll w cs).session_identifier = w.session_identifier := by
  induction cs generalizing w with
  | nil => rfl
  | cons c rest ih => exact (ih (addContainerOk w c)).trans rfl

/-- The type-`t` stream after a sequence of `AddContainer` calls is the
previous stream followed by the added containers of type `t`, in call
order. -/
theorem getContainers_addAll (w : ZIPStorageFileWriter)
    (cs : List AttributeContainer) (t : String) :
    ((List.lookup t (addAll w cs).streams).getD []) =
      ((List.lookup t w.streams).getD []) ++
        cs.filter (fun c => c.container_type == t) := by
  induction cs generalizing w with
  | nil => simp [addAll]
  | cons c rest ih =>
    have h1 : addAll w (c :: rest) = addAll (addContainerOk w c) rest := rfl
    rw [h1, ih]
    have h2 : (addContainerOk w c).streams = appendToStream w.streams c := rfl
    rw [h2, lookup_appendToStream]
    by_cases ht : t = c.container_type
    · have hb : (c.container_type == t) = true := by simp [ht]
      simp [ht, List.filter_cons, hb]
    · have hb : (c.container_type == t) = false := by
        simp [beq_eq_false_iff_ne]
        exact fun hh => ht hh.symm
      simp [ht, List.filter_cons, hb]

/-- C1: store round-trip law: a writer stays open across any sequence of
`AddContainer` calls, and after `Close` the reader's `GetContainers(T)`
yields exactly the containers of type `T` that were added, in the original
call order — none missing and none extra. -/
theorem store_roundtrip (sid t : String) (cs : List AttributeContainer) :
    (addAll (OpenWriter sid) cs).closed = false ∧
    GetContainers (toStoreFile (Close (addAll (OpenWriter sid) cs))) t =
      cs.filter (fun c => c.container_type == t) := by
  constructor
  · rw [addAll_closed]
    rfl
  · show (List.lookup t (addAll (OpenWriter sid) cs).streams).getD [] = _
    rw [getContainers_addAll]
    simp [OpenWriter]

/-- Appending a record to a stream extends its per-record index entries by
one entry whose offset is the stream's previous total size. -/
theorem recordEntriesFrom_append (cs : List AttributeContainer)
    (c : AttributeContainer) (o : Nat) :
    recordEntriesFrom o (cs ++ [c]) =
      recordEntriesFrom o cs ++ [(o + streamBytes cs, c.data.length)] := by
  induction cs generalizing o with
  | nil => simp [recordEntriesFrom, streamBytes]
  | cons d ds ih =>
    simp [recordEntriesFrom, streamBytes, ih, Nat.add_assoc]

/-- The incremental index update of `AddContainer` agrees with recomputing
the index from the stream contents. -/
theorem appendIndexEntry_computeIndex
    (s : List (String × List AttributeContainer)) (c : AttributeContainer) :
    appendIndexEntry (computeIndex s) c.container_type
        (streamBytes ((List.lookup c.container_type s).getD []))
        c.data.length =
      computeIndex (appendToStream s c) := by
  induction s with
  | nil =>
    simp [computeIndex, appendToStream, appendIndexEntry, recordEntriesFrom,
      streamBytes, List.lookup]
  | cons p rest ih =>
    obtain ⟨u, cs⟩ := p
    by_cases hu : u = c.container_type
    · subst hu
      simp [computeIndex, appendToStream, appendIndexEntry,
        lookup_cons_self, recordEntriesFrom_append]
    · have hcu : c.container_type ≠ u := fun hh => hu hh.symm
      rw [lookup_cons_ne c.container_type u cs rest hcu]
      simp only [computeIndex, List.map_cons] at ih ⊢
      simp [appendToStream, appendIndexEntry, hu, ih]

/-- Along any sequence of successful `AddContainer` calls the in-memory
index stays consistent with the stream contents. -/
theorem addAll_index_consistent (w : ZIPStorageFileWriter)
    (cs : List AttributeContainer) (hw : w.index = computeIndex w.streams) :
    (addAll w cs).index = computeIndex (addAll w cs).streams := by
  induction cs generalizing w with
  | nil => exact hw
  | cons c rest ih =>
    have h1 : addAll w (c :: rest) = addAll (addContainerOk w c) rest := rfl
    rw [h1]
    apply ih
    show appendIndexEntry w.index c.container_type
        (streamBytes ((List.lookup c.container_type w.streams).getD []))
        c.data.length = computeIndex (appendToStream w.streams c)
    rw [hw]
    exact appendIndexEntry_computeIndex w.streams c

/-- C5: writer closed state: after `Close()`, every subsequent
`AddContainer` call fails with `WriterClosed`, and the closed store's index
is complete and consistent with its stream contents. -/
theorem writer_closed_spec (sid : String) (cs : List AttributeContainer)
    (c : AttributeContainer) :
    AddContainer (Close (addAll (OpenWriter sid) cs)) c =
      Except.error StorageError.WriterClosed ∧
    (Close (addAll (OpenWriter sid) cs)).index =
      computeIndex (Close (addAll (OpenWriter sid) cs)).streams := by
  constructor
  · rfl
  · show (addAll (OpenWriter sid) cs).index =
      computeIndex (addAll (OpenWriter sid) cs).streams
    exact addAll_index_consistent (OpenWriter sid) cs rfl

/-- Enqueueing one task raises the queued-or-dispatched count by one. -/
theorem activeCount_append_queued (ts : List TaskState) :
    activeCount (ts ++ [TaskState.queued]) = activeCount ts + 1 := by
  simp [activeCount, List.countP_append, List.countP_cons, isActive]

/-- Overwriting a task state never raises the queued-or-dispatched count
when the new state is active only if the old one was. -/
theorem activeCount_set_le (ts : List TaskState) (i : Nat) (u v : TaskState)
    (hget : ts[i]? = some u) (hv : isActive v = true → isActive u = true) :
    activeCount (ts.set i v) ≤ activeCount ts := by
  induction ts generalizing i with
  | nil => simp at hget
  | cons a rest ih =>
    cases i with
    | zero =>
      simp at hget
      subst hget
      by_cases hva : isActive v = true
      · have hua := hv hva
        simp [List.set, activeCount, List.countP_cons, hva, hua]
      · have hva' : isActive v = false := by simpa using hva
        simp [List.set, activeCount, List.countP_cons, hva']
    | succ n =>
      simp only [List.getElem?_cons_succ] at hget
      have hle := ih n hget
      simp only [activeCount] at hle
      simp only [List.set, activeCount, List.countP_cons]
      omega

/-- Every task-queue transition preserves the configured bound. -/
theorem engineStep_max_eq (s s' : EngineState) (hs : EngineStep s s') :
    s'.maximum_number_of_tasks = s.maximum_number_of_tasks := by
  cases hs <;> rfl

/-- A transition that grows the task list is an enqueue, and an enqueue is
only enabled while the queued-or-dispatched count is below the bound. -/
theorem engineStep_enqueue_guard (s s' : EngineState) (hs : EngineStep s s')
    (hlen : s'.tasks.length = s.tasks.length + 1) :
    activeCount s.tasks < s.maximum_number_of_tasks := by
  cases hs with
  | enqueue hp hb => exact hb
  | dispatch i hq => simp [List.length_set] at hlen
  | complete i hd => simp [List.length_set] at hlen
  | fail i hd => simp [List.length_set] at hlen

/-- Every task-queue transition keeps the queued-or-dispatched count within
the bound. -/
theorem engineStep_active_le (s s' : EngineState) (hs : EngineStep s s')
    (h : activeCount s.tasks ≤ s.maximum_number_of_tasks) :
    activeCount s'.tasks ≤ s.maximum_number_of_tasks := by
  cases hs with
  | enqueue hp hb =>
    show activeCount (s.tasks ++ [TaskState.queued]) ≤ _
    rw [activeCount_append_queued]
    omega
  | dispatch i hq =>
    exact le_trans
      (activeCount_set_le s.tasks i TaskState.queued TaskState.dispatched hq
        (fun _ => rfl)) h
  | complete i hd =>
    exact le_trans
      (activeCount_set_le s.tasks i TaskState.dispatched TaskState.completed
        hd (fun hh => by simp [isActive] at hh)) h
  | fail i hd =>
    exact le_trans
      (activeCount_set_le s.tasks i TaskState.dispatched TaskState.failed hd
        (fun hh => by simp [isActive] at hh)) h

/-- C2: task-bound invariant: in every state reachable from an initial
configuration with `maximum_number_of_tasks = n`, at most `n` tasks are
queued-or-dispatched, and a transition that enqueues a new Source Descriptor
(growing the task list) is enabled only while the bound is not saturated —
so at saturation a new Source Descriptor can be enqueued only after some
task has reached a terminal state and freed a slot. -/
theorem task_bound_invariant (n p : Nat) (s s' : EngineState)
    (hr : EngineReachable n p s) :
    s.maximum_number_of_tasks = n ∧ activeCount s.tasks ≤ n ∧
    (EngineStep s s' → s'.tasks.length = s.tasks.length + 1 →
      activeCount s.tasks < n) := by
  induction hr with
  | init =>
    refine ⟨rfl, by simp [initState, activeCount], ?_⟩
    intro hs hlen
    exact engineStep_enqueue_guard _ _ hs hlen
  | step s1 s2 hr1 hs1 ih =>
    obtain ⟨hmax, hact, _⟩ := ih
    have hmax2 : s2.maximum_number_of_tasks = n :=
      (engineStep_max_eq s1 s2 hs1).trans hmax
    have hact2 : activeCount s2.tasks ≤ n := by
      have h := engineStep_active_le s1 s2 hs1 (by rw [hmax]; exact hact)
      rw [hmax] at h
      exact h
    refine ⟨hmax2, hact2, ?_⟩
    intro hs2 hlen2
    have h := engineStep_enqueue_guard _ _ hs2 hlen2
    rw [hmax2] at h
    exact h

/-- Witness for C2: with bound 1, the engine enqueues one task and
dispatches it; the invariant holds in the reached state, and the enqueue
that was taken happened while the bound was not saturated. -/
theorem task_bound_invariant_witness :
    activeCount [TaskState.dispatched] ≤ 1 ∧
    activeCount ([] : List TaskState) < 1 := by
  have hs1 : EngineStep (initState 1 1)
      { maximum_number_of_tasks := 1, tasks := [TaskState.queued],
        pending := 0 } :=
    EngineStep.enqueue (initState 1 1) (by decide) (by decide)
  have hs2 : EngineStep
      { maximum_number_of_tasks := 1, tasks := [TaskState.queued],
        pending := 0 }
      { maximum_number_of_tasks := 1, tasks := [TaskState.dispatched],
        pending := 0 } :=
    EngineStep.dispatch _ 0 (by decide)
  have hr : EngineReachable 1 1
      { maximum_number_of_tasks := 1, tasks := [TaskState.dispatched],
        pending := 0 } :=
    EngineReachable.step _ _
      (EngineReachable.step _ _ EngineReachable.init hs1) hs2
  constructor
  · exact (task_bound_invariant 1 1
      { maximum_number_of_tasks := 1, tasks := [TaskState.dispatched],
        pending := 0 } (initState 1 1) hr).2.1
  · exact (task_bound_invariant 1 1 (initState 1 1)
      { maximum_number_of_tasks := 1, tasks := [TaskState.queued],
        pending := 0 } EngineReachable.init).2.2 hs1 (by decide)

/-- The success path of `AddContainer` never closes the writer. -/
theorem addContainerOk_closed (w : ZIPStorageFileWriter)
    (c : AttributeContainer) : (addContainerOk w c).closed = w.closed := rfl

/-- While the writer is open, feeding a task's containers to `AddContainer`
succeeds and is the fold of the success path. -/
theorem addList_open (w : ZIPStorageFileWriter) (cs : List AttributeContainer)
    (hw : w.closed = false) : addList w cs = Except.ok (addAll w cs) := by
  induction cs generalizing w with
  | nil => rfl
  | cons c rest ih =>
    have hadd : AddContainer w c = Except.ok (addContainerOk w c) := by
      simp [AddContainer, hw]
    have h1 : addList w (c :: rest) = addList (addContainerOk w c) rest := by
      simp [addList, hadd]
    rw [h1]
    exact ih (addContainerOk w c) ((addContainerOk_closed w c).trans hw)

/-- `addAll` over a concatenation is sequential composition. -/
theorem addAll_append (w : ZIPStorageFileWriter)
    (a b : List AttributeContainer) :
    addAll w (a ++ b) = addAll (addAll w a) b := by
  simp [addAll, List.foldl_append]

/-- The Collector merge loop over any outcome list, starting from an open
writer, returns normally with all surviving containers written and the
error counter incremented once per failed task. -/
theorem runTasks_ok (w : ZIPStorageFileWriter) (errs : Nat)
    (srcs : List SourceOutcome) (hw : w.closed = false) :
    runTasks w errs srcs =
      Except.ok (addAll w (survivingContainers srcs),
        errs + failedCount srcs) := by
  induction srcs generalizing w errs with
  | nil => simp [runTasks, survivingContainers, failedCount, addAll]
  | cons src rest ih =>
    cases src with
    | extracted cs =>
      have h1 : runTasks w errs (SourceOutcome.extracted cs :: rest) =
          runTasks (addAll w cs) errs rest := by
        simp [runTasks, addList_open w cs hw]
      rw [h1, ih (addAll w cs) errs ((addAll_closed w cs).trans hw)]
      have h2 : survivingContainers (SourceOutcome.extracted cs :: rest) =
          cs ++ survivingContainers rest := by
        simp [survivingContainers, extractedContainers]
      rw [h2, addAll_append]
      rfl
    | extractionFailed =>
      have h1 : runTasks w errs (SourceOutcome.extractionFailed :: rest) =
          runTasks w (errs + 1) rest := rfl
      rw [h1, ih w (errs + 1) hw]
      have h2 : survivingContainers (SourceOutcome.extractionFailed :: rest) =
          survivingContainers rest := by
        simp [survivingContainers, extractedContainers]
      rw [h2]
      have h3 : errs + 1 + failedCount rest =
          errs + failedCount (SourceOutcome.extractionFailed :: rest) := by
        simp [failedCount]
        omega
      rw [h3]

/-- C4: `ProcessSources` failure containment: it returns fatally only for
setup errors (store cannot be opened, workers cannot be started); for every
outcome list in which some sources fail during extraction it still returns
normally, the containers from the non-failing sources reach the store in
order, the session error counter equals the number of failed tasks, and the
persisted session identifier is the one passed in. -/
theorem processSources_containment (sid t : String)
    (srcs : List SourceOutcome) :
    ProcessSources false true sid srcs =
      ProcessResult.fatal SetupError.storeOpenFailed ∧
    ProcessSources true false sid srcs =
      ProcessResult.fatal SetupError.workersStartFailed ∧
    ProcessSources true true sid srcs =
      ProcessResult.ok
        (toStoreFile (Close
          (addAll (OpenWriter sid) (survivingContainers srcs))))
        { identifier := sid, error_count := failedCount srcs } ∧
    GetContainers
        (toStoreFile (Close
          (addAll (OpenWriter sid) (survivingContainers srcs)))) t =
      (survivingContainers srcs).filter (fun c => c.container_type == t) ∧
    GetSession
        (toStoreFile (Close
          (addAll (OpenWriter sid) (survivingContainers srcs)))) = sid := by
  refine ⟨rfl, rfl, ?_, ?_, ?_⟩
  · have h1 := runTasks_ok (OpenWriter sid) 0 srcs rfl
    simp [ProcessSources, h1]
  · show (List.lookup t
      (addAll (OpenWriter sid) (survivingContainers srcs)).streams).getD [] = _
    rw [getContainers_addAll]
    simp [OpenWriter]
  · show (addAll (OpenWriter sid)
      (survivingContainers srcs)).session_identifier = sid
    rw [addAll_session]
    rfl

/-- C7 counterexample: in the repository's only invocation of the engine,
`maximum_number_of_tasks` is not among the arguments of the
`ProcessSources` call — it is passed to the `MultiProcessEngine`
constructor instead — refuting the claim that `ProcessSources` itself takes
a maximum-number-of-tasks argument. -/
theorem processSources_signature_cex :
    "maximum_number_of_tasks" ∉ ProcessSourcesCallArgNames ∧
    "maximum_number_of_tasks" ∈ MultiProcessEngineInitArgNames := by
  decide

/-- C7 (amended): `ProcessSources` is invoked with five arguments — session
identifier, Source Descriptors, preprocess context, storage writer, parser
filter expression — while the maximum number of tasks is a constructor
argument of `MultiProcessEngine`, not an argument of `ProcessSources`. -/
theorem processSources_signature :
    ProcessSourcesCallArgNames =
      ["session.identifier", "source_path_specs", "preprocess_object",
       "storage_writer", "parser_filter_expression"] ∧
    ProcessSourcesCallArgNames.length = 5 ∧
    "maximum_number_of_tasks" ∈ MultiProcessEngineInitArgNames ∧
    "maximum_number_of_tasks" ∉ ProcessSourcesCallArgNames := by
  decide

end Plaso
